import Mathlib

/-!
EveryTherm device core: shallow embedding and verified properties.

The Go package `etlib` (files `sensor.go`, `networking.go`, `bluetoothserver.go`) is embedded
as pure functions.  Outcomes of collaborators (SPI bus, shell commands, sockets, HTTP client,
JSON library, file system) are explicit inputs; effects (file writes, goroutine launches,
lock operations, field accesses) are explicit outputs.  A Go run-time panic is the `error`
side of `Except Panic`; a Go `error` value is data of type `GoError`.
-/

set_option maxRecDepth 20000

namespace Everytherm

/-! ## Go run-time values -/

/-- A Go `error` value, identified by the text of `Error()`. -/
structure GoError where
  msg : String
  deriving DecidableEq, Repr

/-- Run-time panics the embedded code can raise. -/
inductive Panic where
  | indexOutOfRange
  | nilDereference
  deriving DecidableEq, Repr

deriving instance DecidableEq for Except

/-! ## The fragment of `fmt` used by the package -/

/-- Operands handed to `fmt.Sprintf`, `fmt.Fprintf`: Go strings and `uint8` values. -/
inductive Arg where
  | str (s : String)
  | uint8 (n : Nat)
  deriving DecidableEq, Repr

/-- Go type name of an operand, as printed in `fmt` diagnostics. -/
def Arg.typeName : Arg → String
  | .str _ => "string"
  | .uint8 _ => "uint8"

/-- Rendering of an operand under `%v`. -/
def Arg.valueV : Arg → String
  | .str s => s
  | .uint8 n => toString n

/-- Rendering of one operand under one verb.  `%s` on a string, `%d` on an integer and `%v` are
the verbs the package uses; a verb that does not fit the operand yields the
`%!verb(type=value)` diagnostic of `fmt`. -/
def formatVerb (verb : Char) (a : Arg) : List Char :=
  if verb = 'v' then a.valueV.data
  else match a with
    | .str s =>
      if verb = 's' then s.data
      else '%' :: '!' :: verb :: '(' :: (a.typeName.data ++ '=' :: (a.valueV.data ++ [')']))
    | .uint8 n =>
      if verb = 'd' then (toString n).data
      else '%' :: '!' :: verb :: '(' :: (a.typeName.data ++ '=' :: (a.valueV.data ++ [')']))

/-- Tail of the `%!(EXTRA type=value, ...)` diagnostic for operands left over. -/
def extraArgs : List Arg → List Char
  | [] => []
  | [a] => a.typeName.data ++ '=' :: a.valueV.data
  | a :: b :: rest => a.typeName.data ++ '=' :: (a.valueV.data ++ ',' :: ' ' :: extraArgs (b :: rest))

/-- Diagnostic `fmt` appends when the format is exhausted before the operands. -/
def extraSuffix (args : List Arg) : List Char :=
  match args with
  | [] => []
  | _ :: _ => "%!(EXTRA ".data ++ (extraArgs args ++ [')'])

/-- Interpreter for a format string (no flags, width or precision: the package uses none). -/
def sprintfAux : List Char → List Arg → List Char
  | [], args => extraSuffix args
  | c :: rest, args =>
    if c = '%' then
      match rest, args with
      | [], _ => "%!(NOVERB)".data ++ extraSuffix args
      | v :: rest2, [] =>
        if v = '%' then '%' :: sprintfAux rest2 []
        else '%' :: '!' :: v :: ("(MISSING)".data ++ sprintfAux rest2 [])
      | v :: rest2, a :: as =>
        if v = '%' then '%' :: sprintfAux rest2 (a :: as)
        else formatVerb v a ++ sprintfAux rest2 as
    else c :: sprintfAux rest args

/-- Embedding of `fmt.Sprintf`. -/
def Sprintf (format : String) (args : List Arg) : String :=
  ⟨sprintfAux format.data args⟩

/-- Text `fmt.Fprint` writes for a `[]byte` operand: the bytes as decimal numbers between
square brackets, separated by single blanks. -/
def fprintBytes (data : List Nat) : String :=
  "[" ++ " ".intercalate (data.map toString) ++ "]"

/-- UTF-8 encoding of one character. -/
def utf8EncodeChar (c : Char) : List Nat :=
  let n := c.toNat
  if n < 128 then [n]
  else if n < 2048 then [192 + n / 64, 128 + n % 64]
  else if n < 65536 then [224 + n / 4096, 128 + n / 64 % 64, 128 + n % 64]
  else [240 + n / 262144, 128 + n / 4096 % 64, 128 + n / 64 % 64, 128 + n % 64]

/-- Bytes of a Go string. -/
def stringBytes (s : String) : List Nat :=
  s.data.flatMap utf8EncodeChar

/-! ## The fragment of `strings` used by the package -/

/-- Whether `pat` is an initial segment of `s`. -/
def startsWith : List Char → List Char → Bool
  | [], _ => true
  | _ :: _, [] => false
  | p :: ps, c :: cs => p == c && startsWith ps cs

/-- Embedding of `strings.Index(s, pat) > -1`. -/
def hasSubstr (pat : List Char) : List Char → Bool
  | [] => startsWith pat []
  | c :: cs => startsWith pat (c :: cs) || hasSubstr pat cs

/-- Worker of `splitOn`: `cur` is the piece under construction, reversed. -/
def splitAux (sep : Char) : List Char → List Char → List (List Char)
  | [], cur => [cur.reverse]
  | c :: cs, cur =>
    if c = sep then cur.reverse :: splitAux sep cs []
    else splitAux sep cs (c :: cur)

/-- Embedding of `strings.Split(s, sep)` for a one-character separator. -/
def splitOn (sep : Char) (s : List Char) : List (List Char) :=
  splitAux sep s []

/-! ## Device state record -/

/-- Modelled from the spec: the `ETDevice` record, whose type declaration is not among the
source files.  Its fields are the ones the source uses (`main.go` builds
`ETDevice{BluetoothMAC:"", TempReading:0, Err:nil}`; `TempReading` receives a `uint8` without
conversion); its mutex appears in the embedding as `Event.lock` and `Event.unlock`. -/
structure ETDevice where
  BluetoothMAC : String
  TempReading : Nat
  Err : Option GoError
  deriving DecidableEq, Repr

/-- Fields of the device record. -/
inductive Field where
  | BluetoothMAC
  | TempReading
  | Err
  deriving DecidableEq, Repr

/-- Observable steps of an operation on the shared device: mutex operations, field accesses,
blocking calls, and the launch of a `ReportReading` goroutine on the device as it stands at the
launch. -/
inductive Event where
  | lock
  | unlock
  | read (f : Field)
  | write (f : Field)
  | blocking (call : String)
  | goReportReading (device : ETDevice)
  deriving DecidableEq, Repr

/-- Lock discipline of an event sequence, `held` telling whether the mutex is held at its
start: every field access happens while the mutex is held. -/
def lockDisciplined : Bool → List Event → Bool
  | _, [] => true
  | _, .lock :: es => lockDisciplined true es
  | _, .unlock :: es => lockDisciplined false es
  | held, .read _ :: es => held && lockDisciplined held es
  | held, .write _ :: es => held && lockDisciplined held es
  | held, .blocking _ :: es => lockDisciplined held es
  | held, .goReportReading _ :: es => lockDisciplined held es

/-- Devices handed to `ReportReading` goroutines launched in an event sequence. -/
def reportsLaunched : List Event → List ETDevice
  | [] => []
  | .goReportReading d :: es => d :: reportsLaunched es
  | .lock :: es => reportsLaunched es
  | .unlock :: es => reportsLaunched es
  | .read _ :: es => reportsLaunched es
  | .write _ :: es => reportsLaunched es
  | .blocking _ :: es => reportsLaunched es

/-! ## `sensor.go` -/

/-- Start of `MonitorTemperature`, before the loop: `initErr` is what `embd.InitSPI()` returns.
A failure is stored in `device.Err`; no mutex operation surrounds the store. -/
def MonitorTemperatureSetup (device : ETDevice) (initErr : Option GoError) :
    ETDevice × List Event :=
  match initErr with
  | some err => ({ device with Err := some err }, [.blocking "embd.InitSPI", .write .Err])
  | none => (device, [.blocking "embd.InitSPI"])

/-- One pass through the loop body of `MonitorTemperature`.  `received` is the outcome of
`spiBus.ReceiveData(3)`: the error, or the bytes.  Indexing an empty slice panics. -/
def MonitorTemperatureCycle (device : ETDevice) (received : Except GoError (List Nat)) :
    Except Panic (ETDevice × List Event) :=
  match received with
  | .error err =>
    .ok ({ device with Err := some err },
      [.blocking "spiBus.ReceiveData", .lock, .write .Err, .unlock, .blocking "time.Sleep"])
  | .ok dataReceived =>
    match dataReceived with
    | [] => .error .indexOutOfRange
    | b :: _ =>
      let device1 := { device with TempReading := b }
      if device1.BluetoothMAC ≠ "" then
        .ok (device1,
          [.blocking "spiBus.ReceiveData", .lock, .write .TempReading, .read .BluetoothMAC,
           .goReportReading device1, .unlock, .blocking "time.Sleep"])
      else
        .ok (device1,
          [.blocking "spiBus.ReceiveData", .lock, .write .TempReading, .read .BluetoothMAC,
           .unlock, .blocking "time.Sleep"])

/-- The loop of `MonitorTemperature` run over the successive outcomes of the bus read. -/
def MonitorTemperatureLoop (device : ETDevice) :
    List (Except GoError (List Nat)) → Except Panic (ETDevice × List Event)
  | [] => .ok (device, [])
  | r :: rs =>
    match MonitorTemperatureCycle device r with
    | .error p => .error p
    | .ok (device1, es1) =>
      match MonitorTemperatureLoop device1 rs with
      | .error p => .error p
      | .ok (device2, es2) => .ok (device2, es1 ++ es2)

/-- The function `MonitorTemperature`: set-up, then the loop, for as many iterations as bus
outcomes are supplied. -/
def MonitorTemperature (device : ETDevice) (initErr : Option GoError)
    (reads : List (Except GoError (List Nat))) : Except Panic (ETDevice × List Event) :=
  match MonitorTemperatureLoop (MonitorTemperatureSetup device initErr).1 reads with
  | .error p => .error p
  | .ok (device1, es) => .ok (device1, (MonitorTemperatureSetup device initErr).2 ++ es)

/-! ## `networking.go` -/

def networkStatusDown : String := "DOWN"
def networkStatusLocal : String := "LOCAL"
def networkStatusUP : String := "UP"
def serviceURL : String := "http://services.pcsw.us/everytherm/report?device=%s&reading=&d"
def ssidOff : String := "off/any"
def wpaConfigFile : String := "/etc/wpa_supplicant/wpa_supplicant.conf"
def wpaConfigText : String :=
  "country=US\n" ++
  "ctrl_interface=DIR=/var/run/wpa_supplicant GROUP=netdev\n" ++
  "update_config=1\n" ++
  "network=\x7b\n" ++
  "\tssid=\"%s\"\n" ++
  "   psk=\"%s\"\n" ++
  "\x7d"

/-- Information used to configure the WiFi interface. -/
structure NetworkConfig where
  SSID : String
  Password : String
  deriving DecidableEq, Repr

/-- Information about the current state of the WiFi network. -/
structure NetworkInfo where
  SSID : String
  IPAddr : String
  Status : String
  Available : List String
  deriving DecidableEq, Repr

/-- Effects of the configuration path on the outside world. -/
inductive Effect where
  | writeFile (path : String) (content : String) (perm : Nat)
  | goReconfigureNetwork
  deriving DecidableEq, Repr

/-- Embedding of `ConfigureNetwork`.  `writeFile` is the outcome of `ioutil.WriteFile` for a
path and a content; the write is attempted first, the reconfigure goroutine is launched only
after a successful write. -/
def ConfigureNetwork (writeFile : String → String → Option GoError) (config : NetworkConfig) :
    Option GoError × List Effect :=
  let s := Sprintf wpaConfigText [.str config.SSID, .str config.Password]
  match writeFile wpaConfigFile s with
  | some err => (some err, [.writeFile wpaConfigFile s 0o600])
  | none => (none, [.writeFile wpaConfigFile s 0o600, .goReconfigureNetwork])

/-- What `http.Get` and `http.Post` return: the response pointer (`none` for nil, else the
status code of the response) and the error. -/
structure HttpResult where
  resp : Option Nat
  err : Option GoError
  deriving DecidableEq, Repr

def StatusOK : Nat := 200

/-- Embedding of the test `err != nil && resp.StatusCode == http.StatusOK` shared by
`isServerReachable` and `ReportReading`: the right operand is evaluated only when `err` is
non-nil, and dereferences `resp`. -/
def errAndStatusOK (r : HttpResult) : Except Panic Bool :=
  match r.err with
  | none => .ok false
  | some _ =>
    match r.resp with
    | none => .error .nilDereference
    | some code => .ok (code == StatusOK)

/-- Embedding of `isServerReachable`; `get` is the outcome of `http.Get("https://google.com")`. -/
def isServerReachable (get : HttpResult) : Except Panic Bool :=
  match errAndStatusOK get with
  | .error p => .error p
  | .ok true => .ok true
  | .ok false => .ok false

/-- The URL `ReportReading` builds. -/
def reportURL (device : ETDevice) : String :=
  Sprintf serviceURL [.str device.BluetoothMAC, .uint8 device.TempReading]

/-- Embedding of `ReportReading`; `post` gives the outcome of `http.Post` for a URL.  The
two fields are read without any mutex operation. -/
def ReportReading (post : String → HttpResult) (device : ETDevice) :
    Except Panic Bool × List Event :=
  (match errAndStatusOK (post (reportURL device)) with
    | .error p => .error p
    | .ok true => .ok true
    | .ok false => .ok false,
   [.read .BluetoothMAC, .read .TempReading, .blocking "http.Post"])

/-- Embedding of `fmt.Errorf(format, err)` for a format whose only verb is a final `%s`:
the error whose text is the fixed text followed by `err.Error()`. -/
def errorfWith (text : String) (err : GoError) : GoError :=
  ⟨text ++ err.msg⟩

/-- Search of `getConnectedSSID` through the lines of the command output: the first line that
contains `ESSID` is cut at every colon and its second piece returned; a line with `ESSID` and
no colon makes `parts[1]` panic. -/
def connectedSSIDScan : List (List Char) → Except Panic (String × Option GoError)
  | [] => .ok ("", none)
  | line :: lines =>
    if hasSubstr "ESSID".data line then
      match splitOn ':' line with
      | _ :: part1 :: _ => .ok (⟨part1⟩, none)
      | _ => .error .indexOutOfRange
    else connectedSSIDScan lines

/-- Embedding of `getConnectedSSID`; `out` is the outcome of running `iwconfig wlan0`. -/
def getConnectedSSID (out : Except GoError String) : Except Panic (String × Option GoError) :=
  match out with
  | .error err => .ok ("", some (errorfWith "error when getting the interface information: " err))
  | .ok text => connectedSSIDScan (splitOn '\n' text.data)

/-- Search of `getAvailableSSIDs` through the lines of the scan output: every line that
contains `ESSID` is cut at every double quote and its second piece appended. -/
def availableSSIDsScan : List (List Char) → Except Panic (List String)
  | [] => .ok []
  | line :: lines =>
    if hasSubstr "ESSID".data line then
      match splitOn '"' line with
      | _ :: part1 :: _ =>
        match availableSSIDsScan lines with
        | .error p => .error p
        | .ok ssids => .ok (⟨part1⟩ :: ssids)
      | _ => .error .indexOutOfRange
    else availableSSIDsScan lines

/-- Embedding of `getAvailableSSIDs`; `out` is the outcome of running `iwlist wlan0 scan`. -/
def getAvailableSSIDs (out : Except GoError String) : Except Panic (List String × Option GoError) :=
  match out with
  | .error err => .ok ([], some (errorfWith "error when getting the interface information: " err))
  | .ok text =>
    match availableSSIDsScan (splitOn '\n' text.data) with
    | .error p => .error p
    | .ok ssids => .ok (ssids, none)

/-- Embedding of `getIPAddress`; `dial` is the outcome of `net.Dial("udp", "8.8.8.8:80")`:
the error, or the text of the local address of the connection. -/
def getIPAddress (dial : Except GoError String) : String × Option GoError :=
  match dial with
  | .error err => ("", some err)
  | .ok ip => (ip, none)

/-- Outcomes of the collaborators `GetNetworkInfo` consults. -/
structure World where
  iwconfig : Except GoError String
  dial : Except GoError String
  httpGet : HttpResult
  iwlist : Except GoError String

/-- Second half of `GetNetworkInfo`: the scan for available networks, stored into `info`. -/
def withAvailable (w : World) (info : NetworkInfo) : Except Panic NetworkInfo :=
  match getAvailableSSIDs w.iwlist with
  | .error p => .error p
  | .ok (_, some _) => .ok { info with Available := [] }
  | .ok (ssids, none) => .ok { info with Available := ssids }

/-- Embedding of `GetNetworkInfo` (log output left out). -/
def GetNetworkInfo (w : World) : Except Panic NetworkInfo :=
  let info : NetworkInfo := ⟨"", "", networkStatusDown, []⟩
  match getConnectedSSID w.iwconfig with
  | .error p => .error p
  | .ok (_, some _) => withAvailable w { info with SSID := "UNKNOWN" }
  | .ok (s, none) =>
    if s = ssidOff then
      withAvailable w { info with SSID := "", Status := networkStatusDown }
    else
      let info1 := { info with SSID := s }
      match getIPAddress w.dial with
      | (_, some _) => withAvailable w { info1 with IPAddr := "" }
      | (ip, none) =>
        let info2 := { info1 with IPAddr := ip }
        match isServerReachable w.httpGet with
        | .error p => .error p
        | .ok true => withAvailable w { info2 with Status := networkStatusUP }
        | .ok false => withAvailable w { info2 with Status := networkStatusLocal }

/-! ## `bluetoothserver.go` -/

/-- The two statuses of package `gatt` the handlers use. -/
inductive Status where
  | StatusSuccess
  | StatusUnexpectedError
  deriving DecidableEq, Repr

/-- What a handler leaves in the `gatt.ResponseWriter`: the bytes written and the status set. -/
structure Response where
  body : List Nat
  status : Option Status
  deriving DecidableEq, Repr

/-- Text of a JSON string literal as `encoding/json` writes it: quote and backslash get a
backslash, newline, carriage return and tab their short form, other control characters and
`<`, `>`, `&`, U+2028, U+2029 the six-character `\u` form. -/
def jsonEscapeChar (c : Char) : List Char :=
  if c = '"' then ['\\', '"']
  else if c = '\\' then ['\\', '\\']
  else if c = '\n' then ['\\', 'n']
  else if c = '\r' then ['\\', 'r']
  else if c = '\t' then ['\\', 't']
  else if c.toNat < 32 ∨ c = '<' ∨ c = '>' ∨ c = '&' then
    ['\\', 'u', '0', '0', Nat.digitChar (c.toNat / 16), Nat.digitChar (c.toNat % 16)]
  else if c.toNat = 8232 then "\\u2028".data
  else if c.toNat = 8233 then "\\u2029".data
  else [c]

/-- A Go string as a JSON string literal. -/
def jsonString (s : String) : List Char :=
  '"' :: (s.data.flatMap jsonEscapeChar ++ ['"'])

/-- Elements of a JSON array of strings, comma separated. -/
def jsonStringItems : List String → List Char
  | [] => []
  | [s] => jsonString s
  | s :: t :: rest => jsonString s ++ ',' :: jsonStringItems (t :: rest)

/-- Embedding of `json.Marshal` on a `NetworkInfo` with a non-nil `Available` slice: the
object with keys `ssid`, `ipaddr`, `status`, `available` in declaration order. -/
def jsonMarshalNetworkInfo (info : NetworkInfo) : Except GoError (List Nat) :=
  .ok (stringBytes ⟨"\x7b\"ssid\":".data ++ jsonString info.SSID ++
    ",\"ipaddr\":".data ++ jsonString info.IPAddr ++
    ",\"status\":".data ++ jsonString info.Status ++
    ",\"available\":[".data ++ jsonStringItems info.Available ++ "]\x7d".data⟩)

/-- Embedding of the handler given to `HandleReadFunc`.  `marshal` stands for `json.Marshal`;
`fmt.Fprint(rsp, data)` formats the byte slice with `fprintBytes` and writes that text. -/
def HandleRead (marshal : NetworkInfo → Except GoError (List Nat)) (w : World) :
    Except Panic Response :=
  match GetNetworkInfo w with
  | .error p => .error p
  | .ok info =>
    match marshal info with
    | .error _ => .ok ⟨[], some .StatusUnexpectedError⟩
    | .ok data => .ok ⟨stringBytes (fprintBytes data), some .StatusSuccess⟩

/-- Embedding of `json.Unmarshal(data, config)` with `config` a `NetworkConfig` value, not a
pointer.  `checkValid` is the validity scan of `encoding/json` (nil for well-formed JSON);
`json.Unmarshal` returns its error, and for well-formed input returns
`InvalidUnmarshalError` because the target is not a pointer. -/
def jsonUnmarshalByValue (checkValid : List Nat → Option GoError) (data : List Nat) :
    Option GoError :=
  match checkValid data with
  | some err => some err
  | none => some ⟨"json: Unmarshal(non-pointer etlib.NetworkConfig)"⟩

/-- Embedding of the handler given to `HandleWriteFunc`: the status returned and the effects
on the outside world. -/
def HandleWrite (checkValid : List Nat → Option GoError)
    (writeFile : String → String → Option GoError) (data : List Nat) : Status × List Effect :=
  let config : NetworkConfig := ⟨"", ""⟩
  match jsonUnmarshalByValue checkValid data with
  | some _ => (.StatusUnexpectedError, [])
  | none =>
    match ConfigureNetwork writeFile config with
    | (some _, effects) => (.StatusUnexpectedError, effects)
    | (none, effects) => (.StatusSuccess, effects)

/-- One pass through the loop body of the handler given to `HandleNotifyFunc`, on the device
as it stands during the pass: the text written to the notifier and the events. -/
def notifyIteration (device : ETDevice) : String × List Event :=
  match device.Err with
  | none =>
    (Sprintf "%d" [.uint8 device.TempReading],
      [.read .Err, .read .TempReading, .blocking "fmt.Fprintf", .blocking "time.Sleep"])
  | some _ => ("ERROR", [.read .Err, .blocking "fmt.Fprint", .blocking "time.Sleep"])

/-- What the notify loop meets at the head of one iteration: the answer of `n.Done()` and the
device as it stands then. -/
structure NotifyTick where
  done : Bool
  device : ETDevice
  deriving DecidableEq, Repr

/-- Embedding of the loop `for !n.Done() ...` of the notify handler over the successive
ticks: the texts pushed to the notifier, in order. -/
def HandleNotify : List NotifyTick → List String
  | [] => []
  | t :: ts => if t.done then [] else (notifyIteration t.device).1 :: HandleNotify ts

/-- Embedding of the identity assignment in the `StatePoweredOn` branch of `onStateChanged`;
`addr` is what `getBluetoothAddress` returns.  `none` is the `os.Exit(1)` of the error branch. -/
def assignIdentity (device : ETDevice) (addr : Except GoError String) :
    Option (ETDevice × List Event) :=
  match addr with
  | .error _ => none
  | .ok bluetoothid =>
    some ({ device with BluetoothMAC := bluetoothid }, [.lock, .write .BluetoothMAC, .unlock])

/-! ## Verified properties -/

/-! ### Sensor acquisition -/

/-- Successful cycle while the identity is still empty: the reading is stored, nothing is
launched. -/
theorem cycle_ok_of_identity_empty (device : ETDevice) (b : Nat) (rest : List Nat)
    (h : device.BluetoothMAC = "") :
    MonitorTemperatureCycle device (.ok (b :: rest)) =
      .ok (⟨device.BluetoothMAC, b, device.Err⟩,
        [.blocking "spiBus.ReceiveData", .lock, .write .TempReading, .read .BluetoothMAC,
         .unlock, .blocking "time.Sleep"]) := by
  simp [MonitorTemperatureCycle, h]

/-- Successful cycle once the identity is set: the reading is stored and one report is
launched on the updated device. -/
theorem cycle_ok_of_identity_set (device : ETDevice) (b : Nat) (rest : List Nat)
    (h : device.BluetoothMAC ≠ "") :
    MonitorTemperatureCycle device (.ok (b :: rest)) =
      .ok (⟨device.BluetoothMAC, b, device.Err⟩,
        [.blocking "spiBus.ReceiveData", .lock, .write .TempReading, .read .BluetoothMAC,
         .goReportReading ⟨device.BluetoothMAC, b, device.Err⟩, .unlock,
         .blocking "time.Sleep"]) := by
  simp [MonitorTemperatureCycle, h]

/-- C1, evaluated on the code: a successful bus read whose first byte is `b` stores `b` in
`TempReading` but leaves `Err` as it was, so a failed read with error `e` followed at once by
a successful read ends with the new reading and `Err` still `e`, not nil.  From a device with
no error and reading 7, a failed read and then a read of bytes 42, 0, 0 end with reading 42
and the error recorded, and the notify loop on that device pushes `ERROR`, not `42`. -/
theorem C1_successful_read_leaves_err_set :
    (∀ (device : ETDevice) (b : Nat) (rest : List Nat),
        ∃ events, MonitorTemperatureCycle device (.ok (b :: rest))
          = .ok (⟨device.BluetoothMAC, b, device.Err⟩, events))
      ∧ (∀ (device : ETDevice) (e : GoError) (b : Nat) (rest : List Nat),
        ∃ events, MonitorTemperatureLoop device [.error e, .ok (b :: rest)]
          = .ok (⟨device.BluetoothMAC, b, some e⟩, events))
      ∧ (MonitorTemperatureLoop ⟨"", 7, none⟩ [.error ⟨"EIO"⟩, .ok [42, 0, 0]]).map
          (fun r => r.1) = .ok ⟨"", 42, some ⟨"EIO"⟩⟩
      ∧ (MonitorTemperatureCycle ⟨"", 7, some ⟨"EIO"⟩⟩ (.ok [42, 0, 0])).map
          (fun r => r.1.Err) = .ok (some ⟨"EIO"⟩)
      ∧ (some (⟨"EIO"⟩ : GoError)) ≠ none
      ∧ HandleNotify [⟨false, ⟨"", 42, some ⟨"EIO"⟩⟩⟩] = ["ERROR"] := by
  refine ⟨?_, ?_, by decide, by decide, by decide, by decide⟩
  · intro device b rest
    by_cases h : device.BluetoothMAC = "" <;> simp [MonitorTemperatureCycle, h]
  · intro device e b rest
    by_cases h : device.BluetoothMAC = "" <;>
      simp [MonitorTemperatureLoop, MonitorTemperatureCycle, h]

/-- C9: in one cycle of `MonitorTemperature`, the bus read returning its three bytes on
success, the `ReportReading` goroutines launched are exactly one, on the device after the
reading was stored (identity unchanged, `TempReading` the first byte read), when the read
succeeded and `BluetoothMAC` is non-empty, and none when the read failed or the identity is
empty. -/
theorem C9_report_launches_per_cycle (device : ETDevice) (received : Except GoError (List Nat))
    (hlen : ∀ d, received = .ok d → d.length = 3) :
    ∃ device1 events, MonitorTemperatureCycle device received = .ok (device1, events)
      ∧ device1.BluetoothMAC = device.BluetoothMAC
      ∧ (∀ d, received = .ok d → device1.TempReading = d.headD 0)
      ∧ reportsLaunched events =
          (match received with
            | .ok _ => if device.BluetoothMAC = "" then [] else [device1]
            | .error _ => [])
      ∧ (reportsLaunched events).length =
          (match received with
            | .ok _ => if device.BluetoothMAC = "" then 0 else 1
            | .error _ => 0) := by
  cases received with
  | error err => exact ⟨_, _, rfl, rfl, by simp, rfl, rfl⟩
  | ok d =>
    cases d with
    | nil => exact absurd (hlen [] rfl) (by decide)
    | cons b rest =>
      by_cases h : device.BluetoothMAC = ""
      · refine ⟨_, _, cycle_ok_of_identity_empty device b rest h, rfl, by simp, ?_, ?_⟩ <;>
          simp [reportsLaunched, h]
      · refine ⟨_, _, cycle_ok_of_identity_set device b rest h, rfl, by simp, ?_, ?_⟩ <;>
          simp [reportsLaunched, h]

/-- Instance of C9 at identity `AA:BB:CC:DD:EE:FF` and bytes 42, 0, 0. -/
theorem C9_report_launches_per_cycle_witness :
    ∃ device1 events,
      MonitorTemperatureCycle ⟨"AA:BB:CC:DD:EE:FF", 0, none⟩ (.ok [42, 0, 0]) = .ok (device1, events)
      ∧ device1.BluetoothMAC = "AA:BB:CC:DD:EE:FF"
      ∧ (∀ d, (Except.ok [42, 0, 0] : Except GoError (List Nat)) = .ok d →
          device1.TempReading = d.headD 0)
      ∧ reportsLaunched events = [device1]
      ∧ (reportsLaunched events).length = 1 :=
  C9_report_launches_per_cycle ⟨"AA:BB:CC:DD:EE:FF", 0, none⟩ (.ok [42, 0, 0])
    (by intro d h; cases h; rfl)

/-! ### Remote reporting and reachability -/

/-- C4, evaluated on the code: a request that completes without error with status 200 makes
`isServerReachable` return false; a failed request with no response makes it panic on the nil
response; it returns true exactly when the request returned an error together with a response
of status 200. -/
theorem C4_probe_condition_inverted :
    isServerReachable ⟨some 200, none⟩ = .ok false
      ∧ isServerReachable ⟨none, some ⟨"dial tcp: network is unreachable"⟩⟩
          = .error .nilDereference
      ∧ ∀ r : HttpResult, isServerReachable r = .ok true ↔ r.err ≠ none ∧ r.resp = some 200 := by
  refine ⟨by decide, by decide, ?_⟩
  rintro ⟨resp, err⟩
  cases err with
  | none => simp [isServerReachable, errAndStatusOK]
  | some e =>
    cases resp with
    | none => simp [isServerReachable, errAndStatusOK]
    | some code =>
      simp only [isServerReachable, errAndStatusOK, StatusOK]
      cases hb : (code == 200) <;> simp_all

/-- C7, evaluated on the code: for every identity `m` and reading `r` the URL built by
`ReportReading` has `device=m` followed by an empty `reading` parameter, the literal `&d` and
the left-over-operand diagnostic of `fmt`; for `AA:BB:CC:DD:EE:FF` and 42 it does not end in
`reading=42`. -/
theorem C7_report_url_reading_empty :
    (∀ (m : String) (r : Nat) (e : Option GoError),
        reportURL ⟨m, r, e⟩ = "http://services.pcsw.us/everytherm/report?device=" ++ m
          ++ "&reading=&d%!(EXTRA uint8=" ++ toString r ++ ")")
      ∧ reportURL ⟨"AA:BB:CC:DD:EE:FF", 42, none⟩
          = "http://services.pcsw.us/everytherm/report?device=AA:BB:CC:DD:EE:FF&reading=&d%!(EXTRA uint8=42)"
      ∧ hasSubstr "reading=42".data (reportURL ⟨"AA:BB:CC:DD:EE:FF", 42, none⟩).data = false := by
  refine ⟨?_, by decide, by decide⟩
  intro m r e
  apply String.ext
  simp [reportURL, Sprintf, serviceURL, sprintfAux, formatVerb, extraSuffix, extraArgs,
    Arg.typeName, Arg.valueV]

/-! ### Lock discipline -/

/-- Every completed cycle of the loop of `MonitorTemperature` keeps the lock discipline. -/
theorem cycle_lockDisciplined (device : ETDevice) (received : Except GoError (List Nat))
    (device1 : ETDevice) (events : List Event)
    (h : MonitorTemperatureCycle device received = .ok (device1, events)) :
    lockDisciplined false events = true := by
  cases received with
  | error err =>
    simp [MonitorTemperatureCycle] at h
    rw [← h.2]; rfl
  | ok d =>
    cases d with
    | nil => simp [MonitorTemperatureCycle] at h
    | cons b rest =>
      by_cases hm : device.BluetoothMAC = ""
      · rw [cycle_ok_of_identity_empty device b rest hm] at h
        simp at h
        rw [← h.2]; rfl
      · rw [cycle_ok_of_identity_set device b rest hm] at h
        simp at h
        rw [← h.2]; rfl

/-- The identity assignment at power-on keeps the lock discipline. -/
theorem assignIdentity_lockDisciplined (device : ETDevice) (addr : Except GoError String)
    (device1 : ETDevice) (events : List Event)
    (h : assignIdentity device addr = some (device1, events)) :
    lockDisciplined false events = true := by
  cases addr with
  | error err => simp [assignIdentity] at h
  | ok a =>
    simp [assignIdentity] at h
    rw [← h.2]; rfl

/-- C6, evaluated on the code: the event sequences of the sensor-notify iteration (error set
or not), of the bus-setup failure path of `MonitorTemperature` and of `ReportReading` access
fields of the device with the mutex not held; in particular a whole run of
`MonitorTemperature` whose bus set-up fails breaks the discipline. -/
theorem C6_unlocked_field_accesses :
    (∀ device : ETDevice, lockDisciplined false (notifyIteration device).2 = false)
      ∧ (∀ (device : ETDevice) (e : GoError),
          lockDisciplined false (MonitorTemperatureSetup device (some e)).2 = false)
      ∧ (∀ (post : String → HttpResult) (device : ETDevice),
          lockDisciplined false (ReportReading post device).2 = false)
      ∧ (MonitorTemperature ⟨"", 0, none⟩ (some ⟨"SPI init failed"⟩) [.ok [42, 0, 0]]).map
          (fun r => lockDisciplined false r.2) = .ok false := by
  refine ⟨?_, ?_, ?_, by decide⟩
  · rintro ⟨m, r, e⟩
    cases e <;> rfl
  · intro device e
    rfl
  · intro post device
    rfl

/-! ### Configuration over the wireless link -/

/-- C2, evaluated on the code: for the payload `{"ssid":"HomeNet","password":"secret123"}`,
whatever the JSON validity scan and the file system answer, the config-write handler returns
the error status and has no effect (no file write, no reconfigure); `ConfigureNetwork` itself,
given that configuration and a successful write, writes the text with `ssid="HomeNet"` and
`psk="secret123"` and then launches the reconfigure. -/
theorem C2_valid_payload_rejected :
    (∀ (checkValid : List Nat → Option GoError) (writeFile : String → String → Option GoError),
        HandleWrite checkValid writeFile
          (stringBytes "\x7b\"ssid\":\"HomeNet\",\"password\":\"secret123\"\x7d")
          = (.StatusUnexpectedError, []))
      ∧ ConfigureNetwork (fun _ _ => none) ⟨"HomeNet", "secret123"⟩ =
          (none,
            [.writeFile "/etc/wpa_supplicant/wpa_supplicant.conf"
              ("country=US\nctrl_interface=DIR=/var/run/wpa_supplicant GROUP=netdev\n" ++
               "update_config=1\nnetwork=\x7b\n\tssid=\"HomeNet\"\n   psk=\"secret123\"\n\x7d")
              0o600,
             .goReconfigureNetwork]) := by
  refine ⟨?_, by decide⟩
  intro checkValid writeFile
  unfold HandleWrite jsonUnmarshalByValue
  cases checkValid _ <;> rfl

/-- C8: for every payload, and so for every payload that does not deserialize to a
`NetworkConfig`, the config-write handler returns the error status and has no effect:
`ConfigureNetwork` is not called (each call of it leaves a file-write effect), no file is
written and no reconfigure is launched. -/
theorem C8_rejected_payload_no_effect (checkValid : List Nat → Option GoError)
    (writeFile : String → String → Option GoError) (data : List Nat) :
    HandleWrite checkValid writeFile data = (.StatusUnexpectedError, [])
      ∧ ∀ config : NetworkConfig, (ConfigureNetwork writeFile config).2 ≠ [] := by
  constructor
  · unfold HandleWrite jsonUnmarshalByValue
    cases checkValid data <;> rfl
  · intro config
    simp only [ConfigureNetwork]
    split <;> simp

/-! ### Sensor notification -/

/-- The text pushed in one pass of the notify loop. -/
theorem notifyIteration_text (device : ETDevice) :
    (notifyIteration device).1 =
      (match device.Err with
        | some _ => "ERROR"
        | none => toString device.TempReading) := by
  cases h : device.Err with
  | some e => simp [notifyIteration, h]
  | none =>
    simp only [notifyIteration, h]
    apply String.ext
    simp [Sprintf, sprintfAux, formatVerb, extraSuffix]

/-- While no tick reports done, the loop pushes one text per tick. -/
theorem HandleNotify_open (ticks : List NotifyTick) (h : ∀ x ∈ ticks, x.done = false) :
    HandleNotify ticks = ticks.map (fun x => (notifyIteration x.device).1) := by
  induction ticks with
  | nil => rfl
  | cons t ts ih =>
    have ht : t.done = false := h t (List.mem_cons_self t ts)
    have hts : ∀ x ∈ ts, x.done = false := fun x hx => h x (List.mem_cons_of_mem t hx)
    simp [HandleNotify, ht, ih hts]

/-- The loop stops at the first tick that reports done, whatever follows. -/
theorem HandleNotify_until_done (ticks rest : List NotifyTick) (t : NotifyTick)
    (h : ∀ x ∈ ticks, x.done = false) (hdone : t.done = true) :
    HandleNotify (ticks ++ t :: rest) = ticks.map (fun x => (notifyIteration x.device).1) := by
  induction ticks with
  | nil => simp [HandleNotify, hdone]
  | cons u us ih =>
    have hu : u.done = false := h u (List.mem_cons_self u us)
    have hus : ∀ x ∈ us, x.done = false := fun x hx => h x (List.mem_cons_of_mem u hx)
    simp [HandleNotify, hu, ih hus]

/-- C10: over ticks at which the subscription is open, the notify loop pushes, tick by tick,
`ERROR` when `Err` is set and the decimal text of `TempReading` otherwise; and when these
ticks are followed by a tick at which the notifier reports done, the pushes are the same and
nothing is pushed for that tick or any later one. -/
theorem C10_notify_pushes (ticks rest : List NotifyTick) (t : NotifyTick)
    (hopen : ∀ x ∈ ticks, x.done = false) (hdone : t.done = true) :
    HandleNotify ticks = ticks.map (fun x =>
        match x.device.Err with
        | some _ => "ERROR"
        | none => toString x.device.TempReading)
      ∧ HandleNotify (ticks ++ t :: rest) = HandleNotify ticks := by
  have h1 := HandleNotify_open ticks hopen
  have h2 := HandleNotify_until_done ticks rest t hopen hdone
  refine ⟨?_, by rw [h1, h2]⟩
  rw [h1]
  exact List.map_congr_left (fun x _ => notifyIteration_text x.device)

/-- Instance of C10: two open ticks (reading 21, then an error), a done tick, and after it
one more open tick. -/
theorem C10_notify_pushes_witness :
    HandleNotify [⟨false, ⟨"", 21, none⟩⟩, ⟨false, ⟨"", 21, some ⟨"EIO"⟩⟩⟩] = ["21", "ERROR"]
      ∧ HandleNotify ([⟨false, ⟨"", 21, none⟩⟩, ⟨false, ⟨"", 21, some ⟨"EIO"⟩⟩⟩]
            ++ ⟨true, ⟨"", 22, none⟩⟩ :: [⟨false, ⟨"", 23, none⟩⟩])
          = HandleNotify [⟨false, ⟨"", 21, none⟩⟩, ⟨false, ⟨"", 21, some ⟨"EIO"⟩⟩⟩] :=
  C10_notify_pushes [⟨false, ⟨"", 21, none⟩⟩, ⟨false, ⟨"", 21, some ⟨"EIO"⟩⟩⟩]
    [⟨false, ⟨"", 23, none⟩⟩] ⟨true, ⟨"", 22, none⟩⟩ (by decide) rfl

/-! ### Network status over the wireless link -/

/-- What the config-read handler writes starts with an opening square bracket (byte 91),
whatever the marshalled bytes are. -/
theorem fprintBytes_head (data : List Nat) :
    (stringBytes (fprintBytes data)).head? = some 91 := by
  simp [fprintBytes, stringBytes, utf8EncodeChar]

/-- C3, evaluated on the code: when `iwconfig` and `iwlist` fail, the snapshot is
`UNKNOWN`/`DOWN` with no networks, its JSON serialization is the object with keys `ssid`,
`ipaddr`, `status`, `available`, and the config-read handler sets the success status but
writes, instead of these bytes, the text listing them as decimal numbers between square
brackets; for every marshalled byte sequence the text written starts with `[`. -/
theorem C3_read_writes_byte_listing :
    GetNetworkInfo ⟨.error ⟨"exit status 1"⟩, .error ⟨"unreachable"⟩, ⟨some 200, none⟩,
        .error ⟨"exit status 1"⟩⟩ = .ok ⟨"UNKNOWN", "", "DOWN", []⟩
      ∧ jsonMarshalNetworkInfo ⟨"UNKNOWN", "", "DOWN", []⟩ = .ok (stringBytes "\x7b\"ssid\":\"UNKNOWN\",\"ipaddr\":\"\",\"status\":\"DOWN\",\"available\":[]\x7d")
      ∧ HandleRead jsonMarshalNetworkInfo
          ⟨.error ⟨"exit status 1"⟩, .error ⟨"unreachable"⟩, ⟨some 200, none⟩,
            .error ⟨"exit status 1"⟩⟩
          = .ok ⟨stringBytes ("[123 34 115 115 105 100 34 58 34 85 78 75 78 79 87 78 34 44 34 105 112 97 100 100 114 34 58 34 34 44 34" ++
              " 115 116 97 116 117 115 34 58 34 68 79 87 78 34 44 34 97 118 97 105 108 97 98 108 101 34 58 91 93 125]"), some .StatusSuccess⟩
      ∧ stringBytes ("[123 34 115 115 105 100 34 58 34 85 78 75 78 79 87 78 34 44 34 105 112 97 100 100 114 34 58 34 34 44 34" ++
              " 115 116 97 116 117 115 34 58 34 68 79 87 78 34 44 34 97 118 97 105 108 97 98 108 101 34 58 91 93 125]") ≠ stringBytes "\x7b\"ssid\":\"UNKNOWN\",\"ipaddr\":\"\",\"status\":\"DOWN\",\"available\":[]\x7d"
      ∧ ∀ data : List Nat, (stringBytes (fprintBytes data)).head? = some 91 := by
  refine ⟨by decide, by decide, by decide, by decide, fprintBytes_head⟩

/-- C5, as stated, fails: `iwconfig` reports an associated network, the address query fails
and the probe, had it run, would have returned false; the snapshot has an empty address and
status `DOWN`, neither `UP` nor `LOCAL`. -/
theorem C5_counterexample :
    getConnectedSSID (.ok "wlan0     IEEE 802.11  ESSID:\"HomeNet\"  \n") = .ok ("\"HomeNet\"  ", none)
      ∧ "\"HomeNet\"  " ≠ ssidOff
      ∧ isServerReachable ⟨some 200, none⟩ = .ok false
      ∧ GetNetworkInfo ⟨.ok "wlan0     IEEE 802.11  ESSID:\"HomeNet\"  \n",
          .error ⟨"dial udp 8.8.8.8:80: connect: network is unreachable"⟩,
          ⟨some 200, none⟩, .ok ""⟩
          = .ok ⟨"\"HomeNet\"  ", "", "DOWN", []⟩
      ∧ "DOWN" ≠ networkStatusUP ∧ "DOWN" ≠ networkStatusLocal := by
  decide

/-- C5, amended: in `GetNetworkInfo`, whenever the connected-SSID query succeeds with an SSID
`s` other than the off sentinel (and the scan for available networks returns): if the address
query succeeds with `ip` and the reachability probe returns `b`, the snapshot has SSID `s`,
address `ip` and status `UP` when `b` is true and `LOCAL` when it is false; if the address
query fails, the snapshot has SSID `s`, an empty address and status `DOWN`, whatever the
outbound request would give (the probe is not run). -/
theorem C5_status_by_address_and_probe (w : World) (s : String) (ssids : List String)
    (scanErr : Option GoError)
    (hssid : getConnectedSSID w.iwconfig = .ok (s, none)) (hoff : s ≠ ssidOff)
    (hscan : getAvailableSSIDs w.iwlist = .ok (ssids, scanErr)) :
    (∀ ip b, w.dial = .ok ip → isServerReachable w.httpGet = .ok b →
        ∃ info, GetNetworkInfo w = .ok info ∧ info.SSID = s ∧ info.IPAddr = ip
          ∧ info.Status = if b = true then networkStatusUP else networkStatusLocal)
      ∧ (∀ e, w.dial = .error e →
        ∃ info, GetNetworkInfo w = .ok info ∧ info.SSID = s ∧ info.IPAddr = ""
          ∧ info.Status = networkStatusDown) := by
  constructor
  · intro ip b hdial hprobe
    cases b <;> cases scanErr <;>
      simp [GetNetworkInfo, hssid, hoff, hdial, hprobe, getIPAddress, withAvailable, hscan]
  · intro e hdial
    cases scanErr <;>
      simp [GetNetworkInfo, hssid, hoff, hdial, getIPAddress, withAvailable, hscan]

/-- Instance of C5 (amended): associated network, address `192.168.1.7`, outbound request
completed without error, two networks found by the scan; the status is `LOCAL`. -/
theorem C5_status_by_address_and_probe_witness :
    ∃ info, GetNetworkInfo ⟨.ok "wlan0     IEEE 802.11  ESSID:\"HomeNet\"  \n",
          .ok "192.168.1.7", ⟨some 200, none⟩,
          .ok "  ESSID:\"HomeNet\"\n  ESSID:\"Other\"\n"⟩ = .ok info
      ∧ info.SSID = "\"HomeNet\"  " ∧ info.IPAddr = "192.168.1.7"
      ∧ info.Status = if false = true then networkStatusUP else networkStatusLocal :=
  (C5_status_by_address_and_probe
    ⟨.ok "wlan0     IEEE 802.11  ESSID:\"HomeNet\"  \n", .ok "192.168.1.7", ⟨some 200, none⟩,
      .ok "  ESSID:\"HomeNet\"\n  ESSID:\"Other\"\n"⟩
    "\"HomeNet\"  " ["HomeNet", "Other"] none (by decide) (by decide) (by decide)).1
    "192.168.1.7" false rfl (by decide)

end Everytherm
